import Mathlib

/-!
# Verification of the FunctionTraits compile-time reflection header

A shallow embedding of `src/TypeTraits.h`: the C++ types the library accepts
are modelled as an inductive type `CppType`, and the library's classification
(`FunctionTraits`), transformation aliases (`AddConst`, `ReplaceNthArg`, ...),
compile-time iteration (`ForEach`, `ForEachTupleType`) and type-name
extraction (`TypeNameImpl`) are translated into executable Lean functions.

Modelling conventions:
* Calling conventions carried by a type are the *effective* ones (the header's
  `CallingConventionReplacedWithCdecl` detection means a convention that the
  compiler collapses to cdecl can never appear inside an actual type, so the
  model is the platform on which the enumerated conventions are all distinct;
  `STDEXT_CC_REGCALL` is not defined on that platform, matching the header's
  default configuration).
* "Abominable" raw function types (cv/ref-qualified non-pointer function
  types) are rejected by the header (`Private::IsFreeFunction`) and are not
  representable in the grammar: the `freeFunc` constructor carries no
  cv/ref-qualifiers, exactly the shapes `IsFreeFunction` accepts.
* Variadic functions always use `STDEXT_CC_VARIADIC` (= `STDEXT_CC_CDECL`),
  as in the header's variadic specializations.
-/

namespace FunctionTraits

/-- The header's `enum class CallingConvention` (without the Intel-only
`Regcall`).  `Variadic` is an alias for `Cdecl` in the source
(`Variadic = Cdecl`), so it is not a separate constructor. -/
inductive CC where
  | cdecl
  | stdcall
  | fastcall
  | vectorcall
  | thiscall
  deriving DecidableEq, Repr

/-- The header's `enum class RefQualifier` (`None`, `LValue`, `RValue`). -/
inductive RefQual where
  | noQual
  | lvalue
  | rvalue
  deriving DecidableEq, Repr

/-- C++ types as far as the header observes them.  `scalar n` stands for a
non-class, non-function type (`int`, `float`, ...) identified by a tag;
`cls n` a class/struct with no (unambiguous) `operator()`; `functor`
a class with exactly one non-template `operator()` whose signature is
carried in the constructor's fields.  `ptr`/`memFuncPtr` carry the
cv-qualifiers of the pointer itself (`pc` = `const`, `pv` = `volatile`),
so every distinct C++ type has exactly one representative. -/
inductive CppType where
  | voidT
  | scalar (n : Nat)
  | cls (n : Nat)
  | freeFunc (ret : CppType) (args : List CppType) (cc : CC) (vd nx : Bool)
  | memFuncPtr (pc pv : Bool) (ret : CppType) (cl : CppType) (args : List CppType)
      (cc : CC) (cst vol : Bool) (rq : RefQual) (vd nx : Bool)
  | ptr (pc pv : Bool) (pointee : CppType)
  | lref (t : CppType)
  | rref (t : CppType)
  | functor (n : Nat) (ret : CppType) (args : List CppType) (cc : CC)
      (cst vol : Bool) (rq : RefQual) (vd nx : Bool)

namespace CppType

/-- `std::is_void_v`. -/
def isVoid : CppType → Bool
  | .voidT => true
  | _ => false

/-- `std::remove_reference_t`. -/
def removeReference : CppType → CppType
  | .lref t => t
  | .rref t => t
  | t => t

/-- `std::remove_pointer_t` (member-function pointers are not pointers in
this sense, exactly as for `std::is_pointer`). -/
def removePointer : CppType → CppType
  | .ptr _ _ t => t
  | t => t

/-- `std::remove_cv_t` (strips top-level cv-qualifiers; in this grammar only
pointers and member-function pointers carry them). -/
def removeCv : CppType → CppType
  | .ptr _ _ t => .ptr false false t
  | .memFuncPtr _ _ r c a cc cst vol rq vd nx => .memFuncPtr false false r c a cc cst vol rq vd nx
  | t => t

/-- The header's `RemoveRefAndPtr` alias:
`std::remove_pointer_t<std::remove_reference_t<T>>`. -/
def removeRefAndPtr (t : CppType) : CppType :=
  removePointer (removeReference t)

/-- The header's `RemoveRefAndPtrAndCv` alias:
`std::remove_cv_t<RemoveRefAndPtr<T>>`. -/
def removeRefAndPtrAndCv (t : CppType) : CppType :=
  removeCv (removeRefAndPtr t)

/-- `Private::IsFreeFunction_v`: a raw function type that is not abominable.
Abominable function types are unrepresentable here, so this is just "is a raw
function type". -/
def isFreeFunction : CppType → Bool
  | .freeFunc .. => true
  | _ => false

/-- `std::is_member_function_pointer_v`. -/
def isMemberFunctionPointer : CppType → Bool
  | .memFuncPtr .. => true
  | _ => false

/-- `Private::IsFunctor_v`: `T` (after `std::remove_reference_t`) is a class
with a single non-template `operator()`. -/
def isFunctor (t : CppType) : Bool :=
  match removeReference t with
  | .functor .. => true
  | _ => false

/-- `IsTraitsFunction_v`: the disjunction at the heart of the header's
acceptable-shape test. -/
def isTraitsFunction (t : CppType) : Bool :=
  isFreeFunction (removeRefAndPtr t) || isMemberFunctionPointer (removeReference t) || isFunctor t

/-- `std::is_class_v` as far as this grammar goes (classes and functors). -/
def isClassType : CppType → Bool
  | .cls _ => true
  | .functor .. => true
  | _ => false

/-- C++-representability of the shapes the classifier looks through: the
class named in a member-function pointer must actually be a class type
(`R (C::*)(...)` requires `C` to be a class in C++). -/
def wfTop : CppType → Bool
  | .lref t => wfTop t
  | .rref t => wfTop t
  | .ptr _ _ t => wfTop t
  | .memFuncPtr _ _ _ c _ _ _ _ _ _ _ => isClassType c
  | _ => true

end CppType

/-- The classification record: the members of `FunctionTraitsBase`
(`Type`, `ReturnType`, `CallingConvention`, `IsVariadic`, `Class`,
`IsConst`, `IsVolatile`, `RefQualifier`, `IsNoexcept`, `ArgTypes`).
`Type'` stands for the source's `Type` member (a Lean keyword). -/
structure Traits where
  Type' : CppType
  ReturnType : CppType
  CallingConvention : CC
  IsVariadic : Bool
  Class : CppType
  IsConst : Bool
  IsVolatile : Bool
  RefQualifier : RefQual
  IsNoexcept : Bool
  ArgTypes : List CppType

namespace Traits

/-- `FunctionTraitsBase::ArgCount` (`sizeof...(ArgsT)`). -/
def ArgCount (t : Traits) : Nat :=
  t.ArgTypes.length

/-- `FunctionTraitsBase::IsMemberFunction` (`!std::is_void_v<Class>`). -/
def IsMemberFunction (t : Traits) : Bool :=
  !(t.Class.isVoid)

/-- `FunctionTraitsBase::IsFreeFunction` (`!IsMemberFunction`). -/
def IsFreeFunction (t : Traits) : Bool :=
  !t.IsMemberFunction

end Traits

namespace CppType

/-- Which `FreeFunctionTraits` partial specializations exist: the macro
calls enumerate every non-variadic convention except the member-only
`Thiscall` (`MAKE_FREE_FUNC_TRAITS_NON_VARIADIC` for Cdecl/Stdcall/
Fastcall/Vectorcall), plus the variadic specialization, which is
`STDEXT_CC_VARIADIC` = cdecl only. -/
def freeSpecExists : CC → Bool → Bool
  | .cdecl, _ => true
  | .thiscall, _ => false
  | _, vd => !vd

/-- Which `MemberFunctionTraits` partial specializations exist: every
non-variadic convention (including `Thiscall`), plus the cdecl-only
variadic specialization. -/
def memSpecExists : CC → Bool → Bool
  | .cdecl, _ => true
  | _, vd => !vd

/-- `decltype(&F::operator())` for a functor: the (plain) pointer to its
single non-static call operator, whose enclosing class is the functor
itself. -/
def functorOp (n : Nat) (r : CppType) (a : List CppType) (cc : CC)
    (cst vol : Bool) (rq : RefQual) (vd nx : Bool) : CppType :=
  .memFuncPtr false false r (.functor n r a cc cst vol rq vd nx) a cc cst vol rq vd nx

/-- `FunctionTraits<F>`: dispatch on `RemoveRefAndPtrAndCv<F>` exactly as the
three partial specializations do (free function / member-function pointer /
functor), returning `none` where the primary template's `static_assert`
would fire (no specialization matches).  For a functor the traits are those
of `MemberFunctionTraits<decltype(&F::operator()), decltype(&F::operator())>`
via `FunctorTraits`, so the stored `Type` is the `operator()` pointer. -/
def functionTraits? (F : CppType) : Option Traits :=
  match removeRefAndPtrAndCv F with
  | .freeFunc r a cc vd nx =>
      if freeSpecExists cc vd then
        some ⟨F, r, cc, vd, .voidT, false, false, .noQual, nx, a⟩
      else none
  | .memFuncPtr _ _ r c a cc cst vol rq vd nx =>
      if memSpecExists cc vd then
        some ⟨F, r, cc, vd, c, cst, vol, rq, nx, a⟩
      else none
  | .functor n r a cc cst vol rq vd nx =>
      if isFunctor F && memSpecExists cc vd then
        some ⟨functorOp n r a cc cst vol rq vd nx, r, cc, vd,
              .functor n r a cc cst vol rq vd nx, cst, vol, rq, nx, a⟩
      else none
  | _ => none

/-! ## `FunctionTraitsHelper` (the migration aliases)

`MigrateConst`/`MigrateVolatile`/`MigrateCv`/`MigrateRef`/
`MigratePointerAndRef`/`MigrateCvAndRef` re-apply the wrapping of the user's
original type `F1` (outer reference, pointer, pointer-level cv-qualifiers)
to a freshly built core type `F2`. -/

/-- `std::is_const_v` (top-level const; in this grammar only pointers and
member-function pointers can carry it). -/
def isConstV : CppType → Bool
  | .ptr pc _ _ => pc
  | .memFuncPtr pc _ _ _ _ _ _ _ _ _ _ => pc
  | _ => false

/-- `std::is_volatile_v`. -/
def isVolatileV : CppType → Bool
  | .ptr _ pv _ => pv
  | .memFuncPtr _ pv _ _ _ _ _ _ _ _ _ => pv
  | _ => false

/-- `std::add_const_t` (a no-op on function and reference types, as in C++). -/
def addConstT : CppType → CppType
  | .ptr _ pv t => .ptr true pv t
  | .memFuncPtr _ pv r c a cc cst vol rq vd nx => .memFuncPtr true pv r c a cc cst vol rq vd nx
  | t => t

/-- `std::add_volatile_t` (a no-op on function and reference types). -/
def addVolatileT : CppType → CppType
  | .ptr pc _ t => .ptr pc true t
  | .memFuncPtr pc _ r c a cc cst vol rq vd nx => .memFuncPtr pc true r c a cc cst vol rq vd nx
  | t => t

/-- `std::add_pointer_t`. -/
def addPointerT : CppType → CppType
  | .lref t => .ptr false false t
  | .rref t => .ptr false false t
  | t => .ptr false false t

/-- `std::add_lvalue_reference_t` (with reference collapsing). -/
def addLValueReferenceT : CppType → CppType
  | .lref t => .lref t
  | .rref t => .lref t
  | t => .lref t

/-- `std::add_rvalue_reference_t` (with reference collapsing). -/
def addRValueReferenceT : CppType → CppType
  | .lref t => .lref t
  | .rref t => .rref t
  | t => .rref t

/-- `std::is_pointer_v` (member-function pointers excluded, as in C++). -/
def isPointerV : CppType → Bool
  | .ptr .. => true
  | _ => false

/-- `std::is_lvalue_reference_v`. -/
def isLValueReferenceV : CppType → Bool
  | .lref _ => true
  | _ => false

/-- `std::is_rvalue_reference_v`. -/
def isRValueReferenceV : CppType → Bool
  | .rref _ => true
  | _ => false

/-- `FunctionTraitsHelper::MigrateConst`. -/
def migrateConst (F1 F2 : CppType) : CppType :=
  if isConstV (removeReference F1) then addConstT F2 else F2

/-- `FunctionTraitsHelper::MigrateVolatile`. -/
def migrateVolatile (F1 F2 : CppType) : CppType :=
  if isVolatileV (removeReference F1) then addVolatileT F2 else F2

/-- `FunctionTraitsHelper::MigrateCv`. -/
def migrateCv (F1 F2 : CppType) : CppType :=
  migrateVolatile F1 (migrateConst F1 F2)

/-- `FunctionTraitsHelper::MigrateRef`. -/
def migrateRef (F1 F2 : CppType) : CppType :=
  if isLValueReferenceV F1 then addLValueReferenceT F2
  else if isRValueReferenceV F1 then addRValueReferenceT F2
  else F2

/-- `FunctionTraitsHelper::MigratePointerAndRef` (free functions only). -/
def migratePointerAndRef (F1 F2 : CppType) : CppType :=
  migrateRef F1
    (if isPointerV (removeReference F1) then migrateCv F1 (addPointerT F2) else F2)

/-- `FunctionTraitsHelper::MigrateCvAndRef` (non-static member functions only). -/
def migrateCvAndRef (F1 F2 : CppType) : CppType :=
  migrateRef F1 (migrateCv F1 F2)

/-! ## `ReplaceNthType` -/

/-- `ReplaceNthType`: replaces the `N`-th type of the pack with `newT`
(entry `i` of the result is `std::conditional_t<i == N, NewT, Ts[i]>`);
`none` models the `static_assert` halt when `N` is not the index of an
existing element (`N < sizeof...(Ts)` fails). -/
def ReplaceNthType (N : Nat) (newT : CppType) (ts : List CppType) : Option (List CppType) :=
  if N < ts.length then
    some (List.zipWith (fun i t => if i = N then newT else t) (List.range ts.length) ts)
  else none

/-! ## The write traits (transformation aliases)

Each alias below dispatches exactly as `FunctionTraits` does: on
`RemoveRefAndPtrAndCv<F>`, with a free-function branch
(`MAKE_FREE_FUNC_TRAITS_2`), a member-function-pointer branch
(`MAKE_MEMBER_FUNC_TRAITS_5`), and a functor branch (`FunctorTraits`,
which instantiates the member branch at `decltype(&F::operator())` for
*both* template args, so the `F1` used for migration is the plain
`operator()` pointer, not the functor).  `onEachShape` factors out this
dispatch; the per-alias functions are the bodies of the corresponding
`using` aliases in the two macros. -/

/-- Dispatch helper shared by all transformation aliases.  `ffree` receives
the `F1` used by `MigratePointerAndRef` plus the matched free-function core
(`R`, `Args`, convention, variadic, noexcept); `fmem` receives the `F1`
used by `MigrateCvAndRef` plus the matched member-pointer core.  `none`
models the primary template's `static_assert` (no specialization). -/
def onEachShape (F : CppType)
    (ffree : CppType → CppType → List CppType → CC → Bool → Bool → CppType)
    (fmem : CppType → CppType → CppType → List CppType → CC → Bool → Bool → RefQual → Bool → Bool → CppType) :
    Option CppType :=
  match removeRefAndPtrAndCv F with
  | .freeFunc r a cc vd nx =>
      if freeSpecExists cc vd then some (ffree F r a cc vd nx) else none
  | .memFuncPtr _ _ r c a cc cst vol rq vd nx =>
      if memSpecExists cc vd then some (fmem F r c a cc cst vol rq vd nx) else none
  | .functor n r a cc cst vol rq vd nx =>
      if isFunctor F && memSpecExists cc vd then
        some (fmem (functorOp n r a cc cst vol rq vd nx) r
                   (.functor n r a cc cst vol rq vd nx) a cc cst vol rq vd nx)
      else none
  | _ => none

/-- `AddVariadicArgs` (`R STDEXT_CC_VARIADIC (Args..., ...)` resp.
`R (STDEXT_CC_VARIADIC C::*)(Args..., ...) ...`; `STDEXT_CC_VARIADIC` is
`STDEXT_CC_CDECL`). -/
def AddVariadicArgs (F : CppType) : Option CppType :=
  onEachShape F
    (fun F1 r a _ _ nx => migratePointerAndRef F1 (.freeFunc r a .cdecl true nx))
    (fun F1 r c a _ cst vol rq _ nx =>
      migrateCvAndRef F1 (.memFuncPtr false false r c a .cdecl cst vol rq true nx))

/-- `RemoveVariadicArgs` (`R CC (Args...)` resp. `R (CC C::*)(Args...) ...`). -/
def RemoveVariadicArgs (F : CppType) : Option CppType :=
  onEachShape F
    (fun F1 r a cc _ nx => migratePointerAndRef F1 (.freeFunc r a cc false nx))
    (fun F1 r c a cc cst vol rq _ nx =>
      migrateCvAndRef F1 (.memFuncPtr false false r c a cc cst vol rq false nx))

/-- `AddConst` (free branch: literally `F`; member branch:
`R (CC C::*)ARGS const VOLATILE REF noexcept(NX)`). -/
def AddConst (F : CppType) : Option CppType :=
  onEachShape F
    (fun F1 _ _ _ _ _ => F1)
    (fun F1 r c a cc _ vol rq vd nx =>
      migrateCvAndRef F1 (.memFuncPtr false false r c a cc true vol rq vd nx))

/-- `RemoveConst`. -/
def RemoveConst (F : CppType) : Option CppType :=
  onEachShape F
    (fun F1 _ _ _ _ _ => F1)
    (fun F1 r c a cc _ vol rq vd nx =>
      migrateCvAndRef F1 (.memFuncPtr false false r c a cc false vol rq vd nx))

/-- `AddVolatile`. -/
def AddVolatile (F : CppType) : Option CppType :=
  onEachShape F
    (fun F1 _ _ _ _ _ => F1)
    (fun F1 r c a cc cst _ rq vd nx =>
      migrateCvAndRef F1 (.memFuncPtr false false r c a cc cst true rq vd nx))

/-- `RemoveVolatile`. -/
def RemoveVolatile (F : CppType) : Option CppType :=
  onEachShape F
    (fun F1 _ _ _ _ _ => F1)
    (fun F1 r c a cc cst _ rq vd nx =>
      migrateCvAndRef F1 (.memFuncPtr false false r c a cc cst false rq vd nx))

/-- `AddCV`. -/
def AddCV (F : CppType) : Option CppType :=
  onEachShape F
    (fun F1 _ _ _ _ _ => F1)
    (fun F1 r c a cc _ _ rq vd nx =>
      migrateCvAndRef F1 (.memFuncPtr false false r c a cc true true rq vd nx))

/-- `RemoveCV`. -/
def RemoveCV (F : CppType) : Option CppType :=
  onEachShape F
    (fun F1 _ _ _ _ _ => F1)
    (fun F1 r c a cc _ _ rq vd nx =>
      migrateCvAndRef F1 (.memFuncPtr false false r c a cc false false rq vd nx))

/-- `AddLValueReference` (ref-qualifier `&` on member functions). -/
def AddLValueReference (F : CppType) : Option CppType :=
  onEachShape F
    (fun F1 _ _ _ _ _ => F1)
    (fun F1 r c a cc cst vol _ vd nx =>
      migrateCvAndRef F1 (.memFuncPtr false false r c a cc cst vol .lvalue vd nx))

/-- `AddRValueReference` (ref-qualifier `&&` on member functions). -/
def AddRValueReference (F : CppType) : Option CppType :=
  onEachShape F
    (fun F1 _ _ _ _ _ => F1)
    (fun F1 r c a cc cst vol _ vd nx =>
      migrateCvAndRef F1 (.memFuncPtr false false r c a cc cst vol .rvalue vd nx))

/-- `RemoveReference` (drops the member ref-qualifier). -/
def RemoveReference (F : CppType) : Option CppType :=
  onEachShape F
    (fun F1 _ _ _ _ _ => F1)
    (fun F1 r c a cc cst vol _ vd nx =>
      migrateCvAndRef F1 (.memFuncPtr false false r c a cc cst vol .noQual vd nx))

/-- `AddNoexcept`. -/
def AddNoexcept (F : CppType) : Option CppType :=
  onEachShape F
    (fun F1 r a cc vd _ => migratePointerAndRef F1 (.freeFunc r a cc vd true))
    (fun F1 r c a cc cst vol rq vd _ =>
      migrateCvAndRef F1 (.memFuncPtr false false r c a cc cst vol rq vd true))

/-- `RemoveNoexcept`. -/
def RemoveNoexcept (F : CppType) : Option CppType :=
  onEachShape F
    (fun F1 r a cc vd _ => migratePointerAndRef F1 (.freeFunc r a cc vd false))
    (fun F1 r c a cc cst vol rq vd _ =>
      migrateCvAndRef F1 (.memFuncPtr false false r c a cc cst vol rq vd false))

/-- `ReplaceCallingConvention`.  Free non-variadic branch: the 5-entry
`std::tuple` indexed by the new convention is
`[Cdecl, Stdcall, Fastcall, Vectorcall, CC]` — its `Thiscall` slot holds the
*current* convention, since `Thiscall` is member-only (the "no-op" entry).
Member non-variadic branch: the tuple is
`[Cdecl, Stdcall, Fastcall, Vectorcall, Thiscall]`, i.e. the requested
convention itself.  The variadic specializations ignore the request and
rebuild with `STDEXT_CC_VARIADIC` (= cdecl). -/
def ReplaceCallingConvention (F : CppType) (newCC : CC) : Option CppType :=
  onEachShape F
    (fun F1 r a cc vd nx =>
      if vd then migratePointerAndRef F1 (.freeFunc r a .cdecl true nx)
      else migratePointerAndRef F1
        (.freeFunc r a (if newCC = .thiscall then cc else newCC) vd nx))
    (fun F1 r c a _ cst vol rq vd nx =>
      if vd then migrateCvAndRef F1 (.memFuncPtr false false r c a .cdecl cst vol rq true nx)
      else migrateCvAndRef F1 (.memFuncPtr false false r c a newCC cst vol rq vd nx))

/-- `ReplaceClass` (free branch: literally `F`; member branch replaces the
enclosing class). -/
def ReplaceClass (F : CppType) (newClass : CppType) : Option CppType :=
  onEachShape F
    (fun F1 _ _ _ _ _ => F1)
    (fun F1 r _ a cc cst vol rq vd nx =>
      migrateCvAndRef F1 (.memFuncPtr false false r newClass a cc cst vol rq vd nx))

/-- `ReplaceReturnType`. -/
def ReplaceReturnType (F : CppType) (newRet : CppType) : Option CppType :=
  onEachShape F
    (fun F1 _ a cc vd nx => migratePointerAndRef F1 (.freeFunc newRet a cc vd nx))
    (fun F1 _ c a cc cst vol rq vd nx =>
      migrateCvAndRef F1 (.memFuncPtr false false newRet c a cc cst vol rq vd nx))

/-- `ReplaceArgs` (`std::conditional_t<IsVariadic, R VARIADIC (New..., ...),
R CC (New...)>` and the member analogue). -/
def ReplaceArgs (F : CppType) (newArgs : List CppType) : Option CppType :=
  onEachShape F
    (fun F1 r _ cc vd nx =>
      if vd then migratePointerAndRef F1 (.freeFunc r newArgs .cdecl true nx)
      else migratePointerAndRef F1 (.freeFunc r newArgs cc false nx))
    (fun F1 r c _ cc cst vol rq vd nx =>
      if vd then migrateCvAndRef F1 (.memFuncPtr false false r c newArgs .cdecl cst vol rq true nx)
      else migrateCvAndRef F1 (.memFuncPtr false false r c newArgs cc cst vol rq false nx))

/-- `ReplaceNthArg` = `ReplaceArgsTuple<ReplaceNthType_t<N, NewArgT, Args...>>`
(and `ReplaceArgsTuple` just feeds the tuple's types back to `ReplaceArgs`).
`none` when `F` is not classifiable or when `ReplaceNthType`'s
`static_assert` fires. -/
def ReplaceNthArg (F : CppType) (N : Nat) (newArg : CppType) : Option CppType :=
  match functionTraits? F with
  | some tr => (ReplaceNthType N newArg tr.ArgTypes).bind (fun a => ReplaceArgs F a)
  | none => none

end CppType

/-! ## Compile-time iteration: `ForEach` and `ForEachTupleType`

`ForEachImpl::Process<I>` (equivalently the C++20 lambda in `ForEach`) is
translated with an instrumentation: besides the `bool` result it returns
the list of indices at which the caller's functor was invoked, in
invocation order, so "invoked exactly once per index" is the statement
that this list is `[I, I+1, ..]`.  The functor is modelled by its result
(`pred : Nat → Bool`); `pred` is consulted exactly where the C++ code
invokes `functor.operator()<I>()`. -/

/-- `ForEachImpl<N, ..>::Process<I>` with its invocation trace. -/
def ForEachProcess (N : Nat) (pred : Nat → Bool) (I : Nat) : Bool × List Nat :=
  if I < N then
    if pred I then
      let rest := ForEachProcess N pred (I + 1)
      (rest.1, I :: rest.2)
    else (false, [I])
  else (true, [])
termination_by N - I

/-- `ForEach<N>(functor)`: starts `Process` at index 0 and returns its
`bool` (`true` = completed, `false` = stopped early). -/
def ForEach (N : Nat) (pred : Nat → Bool) : Bool :=
  (ForEachProcess N pred 0).1

/-- `ForEachTupleType<TupleT>(functor)`: bypasses iteration entirely for an
empty tuple (the `if constexpr (std::tuple_size_v<TupleT> != 0)` guard,
returning `true`), otherwise defers to `ForEach` over the tuple's size with
the `processTupleType` functor, which feeds index `I` *and* element type
`std::tuple_element_t<I, TupleT>` to the caller's functor.  Returned with
the same invocation trace as `ForEachProcess`. -/
def ForEachTupleType (tup : List CppType) (pred : Nat → CppType → Bool) : Bool × List Nat :=
  if tup.length ≠ 0 then
    ForEachProcess tup.length (fun I => pred I (tup.getD I .voidT)) 0
  else (true, [])

/-! ## The type-name extractor (`Private::TypeNameImpl`)

Modelled for the Clang/Intel signature format (and GCC's format 1 of 2),
where `__PRETTY_FUNCTION__` for `GetPrettyFunction<T>()` is
`<prefix> ++ "= " ++ <name of T> ++ "]"` — the string differs between two
instantiations exactly by the type-name substring, the invariant the
header's offset/length calibration relies on.  The compiler is a
parameter: `pre` (the per-toolchain prefix) and `nm` (the name the
compiler prints for each type).  The calibration type `float` is a fixed
scalar. -/

/-- The calibration type `float`. -/
def floatT : CppType := .scalar 0

/-- `TypeNameImpl::GetPrettyFunction<T>()` in the modelled format. -/
def getPrettyFunction (pre : List Char) (nm : CppType → List Char) (T : CppType) : List Char :=
  pre ++ ('=' :: ' ' :: nm T) ++ [']']

/-- `TypeNameImpl::GetTypeNameOffset()`: the offset of the type name inside
the pretty string, computed from the `float` probe only (the string for
`float` ends with `"= float]"`, so the name starts 6 characters before the
end). -/
def getTypeNameOffset (pre : List Char) (nm : CppType → List Char) : Nat :=
  (getPrettyFunction pre nm floatT).length - 6

/-- `TypeNameImpl::GetTypeNameLen<T>()`: 5 (the length of `"float"`) plus
the length delta between `T`'s and `float`'s pretty strings, with the
source's case split that keeps the unsigned subtraction non-negative. -/
def getTypeNameLen (pre : List Char) (nm : CppType → List Char) (T : CppType) : Nat :=
  if (getPrettyFunction pre nm T).length > (getPrettyFunction pre nm floatT).length then
    5 + ((getPrettyFunction pre nm T).length - (getPrettyFunction pre nm floatT).length)
  else
    5 - ((getPrettyFunction pre nm floatT).length - (getPrettyFunction pre nm T).length)

/-- `TypeNameImpl::Get<T>()`:
`GetPrettyFunction<T>().substr(GetTypeNameOffset(), GetTypeNameLen<T>())`. -/
def typeNameGet (pre : List Char) (nm : CppType → List Char) (T : CppType) : List Char :=
  List.take (getTypeNameLen pre nm T)
    (List.drop (getTypeNameOffset pre nm) (getPrettyFunction pre nm T))

/-! ## Constructed shapes

The claims quantify over "a type constructed with those attributes":
a free-function signature under one of the four supported wrappings
(raw function, pointer, reference, reference-to-pointer — pointers
possibly cv-qualified), and a member-function signature under one of the
two supported wrappings (possibly-cv-qualified pointer, reference to such
a pointer).  These builders produce exactly those `CppType`s. -/

/-- The attributes of a free function (or static member function). -/
structure FreeSig where
  ret : CppType
  args : List CppType
  cc : CC
  vd : Bool
  nx : Bool

/-- The raw function type `ret cc (args...[, ...]) noexcept(nx)`. -/
def FreeSig.fn (s : FreeSig) : CppType :=
  .freeFunc s.ret s.args s.cc s.vd s.nx

/-- The outer wrappings accepted for free functions. -/
inductive FreeWrap where
  | raw
  | pt (pc pv : Bool)
  | rf (lv : Bool)
  | refPtr (lv : Bool) (pc pv : Bool)

/-- Apply a free-function wrapping. -/
def FreeWrap.apply : FreeWrap → CppType → CppType
  | .raw, t => t
  | .pt pc pv, t => .ptr pc pv t
  | .rf true, t => .lref t
  | .rf false, t => .rref t
  | .refPtr true pc pv, t => .lref (.ptr pc pv t)
  | .refPtr false pc pv, t => .rref (.ptr pc pv t)

/-- The attributes of a non-static member function. -/
structure MemSig where
  ret : CppType
  cl : CppType
  args : List CppType
  cc : CC
  cst : Bool
  vol : Bool
  rq : RefQual
  vd : Bool
  nx : Bool

/-- The pointer-to-member-function type, with pointer-level cv-qualifiers. -/
def MemSig.ptrTo (s : MemSig) (pc pv : Bool) : CppType :=
  .memFuncPtr pc pv s.ret s.cl s.args s.cc s.cst s.vol s.rq s.vd s.nx

/-- The outer wrappings accepted for member functions: a
(possibly cv-qualified) pointer, or a reference to such a pointer. -/
inductive MemWrap where
  | pt (pc pv : Bool)
  | refPtr (lv : Bool) (pc pv : Bool)

/-- Apply a member-function wrapping. -/
def MemWrap.apply : MemWrap → MemSig → CppType
  | .pt pc pv, s => s.ptrTo pc pv
  | .refPtr true pc pv, s => .lref (s.ptrTo pc pv)
  | .refPtr false pc pv, s => .rref (s.ptrTo pc pv)

/-! ## Helper lemmas -/

open CppType

/-- Normalization of a wrapped free function: stripping the outer
reference/pointer/cv layers recovers the raw function type. -/
theorem normFree (w : FreeWrap) (r : CppType) (a : List CppType) (cc : CC) (vd nx : Bool) :
    removeRefAndPtrAndCv (w.apply (.freeFunc r a cc vd nx)) = .freeFunc r a cc vd nx := by
  rcases w with _ | ⟨pc, pv⟩ | (_|_) | ⟨(_|_), pc, pv⟩ <;>
    simp [FreeWrap.apply, removeRefAndPtrAndCv, removeRefAndPtr,
          removeReference, removePointer, removeCv]

/-- Normalization of a wrapped member-function pointer: stripping the outer
reference and the pointer-level cv-qualifiers leaves the plain pointer. -/
theorem normMem (w : MemWrap) (r c : CppType) (a : List CppType) (cc : CC)
    (cst vol : Bool) (rq : RefQual) (vd nx : Bool) :
    removeRefAndPtrAndCv (w.apply ⟨r, c, a, cc, cst, vol, rq, vd, nx⟩) =
      .memFuncPtr false false r c a cc cst vol rq vd nx := by
  rcases w with ⟨pc, pv⟩ | ⟨(_|_), pc, pv⟩ <;>
    simp [MemWrap.apply, MemSig.ptrTo, removeRefAndPtrAndCv, removeRefAndPtr,
          removeReference, removePointer, removeCv]

/-- `MigratePointerAndRef` re-applies a free-function wrapping: migrating
from any wrapped raw function onto a fresh raw function re-creates the
same wrapping (pointer-ness, pointer cv-qualifiers, reference kind). -/
theorem migrateFree (w : FreeWrap) (r0 r : CppType) (a0 a : List CppType)
    (cc0 cc : CC) (vd0 nx0 vd nx : Bool) :
    migratePointerAndRef (w.apply (.freeFunc r0 a0 cc0 vd0 nx0)) (.freeFunc r a cc vd nx) =
      w.apply (.freeFunc r a cc vd nx) := by
  rcases w with _ | ⟨(_|_), (_|_)⟩ | (_|_) | ⟨(_|_), (_|_), (_|_)⟩ <;>
    simp [FreeWrap.apply, migratePointerAndRef, migrateRef, migrateCv,
          migrateConst, migrateVolatile, isPointerV, isLValueReferenceV, isRValueReferenceV,
          isConstV, isVolatileV, addPointerT, addConstT, addVolatileT,
          addLValueReferenceT, addRValueReferenceT, removeReference]

/-- `MigrateCvAndRef` re-applies a member wrapping: migrating from any
wrapped member pointer onto a fresh plain member pointer re-creates the
pointer cv-qualifiers and reference kind. -/
theorem migrateMem (w : MemWrap) (r0 c0 r c : CppType) (a0 a : List CppType)
    (cc0 cc : CC) (cst0 vol0 cst vol : Bool) (rq0 rq : RefQual) (vd0 nx0 vd nx : Bool) :
    migrateCvAndRef (w.apply ⟨r0, c0, a0, cc0, cst0, vol0, rq0, vd0, nx0⟩)
        (.memFuncPtr false false r c a cc cst vol rq vd nx) =
      w.apply ⟨r, c, a, cc, cst, vol, rq, vd, nx⟩ := by
  rcases w with ⟨(_|_), (_|_)⟩ | ⟨(_|_), (_|_), (_|_)⟩ <;>
    simp [MemWrap.apply, MemSig.ptrTo, migrateCvAndRef, migrateRef, migrateCv,
          migrateConst, migrateVolatile, isLValueReferenceV, isRValueReferenceV,
          isConstV, isVolatileV, addConstT, addVolatileT,
          addLValueReferenceT, addRValueReferenceT, removeReference]

/-- Migrating from a plain (non-cv, non-referenced) member pointer — the
`F1` that `FunctorTraits` passes down — changes nothing. -/
theorem migratePlainMem (r0 c0 : CppType) (a0 : List CppType) (cc0 : CC)
    (cst0 vol0 : Bool) (rq0 : RefQual) (vd0 nx0 : Bool) (X : CppType) :
    migrateCvAndRef (.memFuncPtr false false r0 c0 a0 cc0 cst0 vol0 rq0 vd0 nx0) X = X := by
  simp [migrateCvAndRef, migrateRef, migrateCv, migrateConst, migrateVolatile,
        isLValueReferenceV, isRValueReferenceV, isConstV, isVolatileV, removeReference]

/-- A variadic free function is handled only with the cdecl
(`STDEXT_CC_VARIADIC`) convention. -/
theorem freeSpecExists_variadic {cc : CC} (h : freeSpecExists cc true = true) :
    cc = .cdecl := by
  cases cc <;> simp [freeSpecExists] at h ⊢

/-- A variadic member function is handled only with the cdecl convention. -/
theorem memSpecExists_variadic {cc : CC} (h : memSpecExists cc true = true) :
    cc = .cdecl := by
  cases cc <;> simp [memSpecExists] at h ⊢

/-- No `FreeFunctionTraits` specialization uses the member-only `Thiscall`. -/
theorem freeSpecExists_not_thiscall {cc : CC} {vd : Bool} (h : freeSpecExists cc vd = true) :
    cc ≠ .thiscall := by
  cases cc <;> simp [freeSpecExists] at h ⊢

/-- Content of a successful `ReplaceNthType`: same length, entry `N`
replaced, all other entries untouched. -/
theorem replaceNth_spec (N : Nat) (newT : CppType) (ts l : List CppType)
    (h : ReplaceNthType N newT ts = some l) :
    l.length = ts.length ∧ l[N]? = some newT ∧ ∀ i, i ≠ N → l[i]? = ts[i]? := by
  unfold ReplaceNthType at h
  split at h
  case isTrue hN =>
    injection h with h
    subst h
    refine ⟨by simp, ?_, ?_⟩
    · have hx : ts[N]? = some ts[N] := List.getElem?_eq_getElem hN
      simp [List.getElem?_zipWith', List.getElem?_range, hN, hx]
    · intro i hi
      rcases Nat.lt_or_ge i ts.length with hlt | hge
      · have hx : ts[i]? = some ts[i] := List.getElem?_eq_getElem hlt
        simp [List.getElem?_zipWith', List.getElem?_range, hlt, hx, hi]
      · have hx : ts[i]? = none := List.getElem?_eq_none (by simpa using hge)
        simp [List.getElem?_zipWith', hx]
  case isFalse => exact absurd h (by simp)

/-- `ReplaceNthType` with an out-of-range index is the `static_assert` halt. -/
theorem replaceNth_none (N : Nat) (newT : CppType) (ts : List CppType)
    (h : ts.length ≤ N) : ReplaceNthType N newT ts = none := by
  unfold ReplaceNthType
  simp [Nat.not_lt.2 h]

/-- `wfTop` is preserved by the classifier's normalization pass. -/
theorem wfTop_norm {F : CppType} (h : wfTop F = true) :
    wfTop (removeRefAndPtrAndCv F) = true := by
  unfold removeRefAndPtrAndCv removeRefAndPtr
  have h1 : wfTop (removeReference F) = true := by
    cases F <;> simp_all [removeReference, wfTop]
  generalize removeReference F = G at h1
  have h2 : wfTop (removePointer G) = true := by
    cases G <;> simp_all [removePointer, wfTop]
  generalize removePointer G = G2 at h2
  cases G2 <;> simp_all [removeCv, wfTop]

/-- `ForEachImpl::Process` when the functor never returns `false`: visits
`I, I+1, ..., N-1` once each and completes. -/
theorem forEachProcess_complete (N : Nat) (pred : Nat → Bool)
    (h : ∀ i, i < N → pred i = true) :
    ∀ (k I : Nat), N - I = k → ForEachProcess N pred I = (true, List.range' I k) := by
  intro k
  induction k with
  | zero =>
      intro I hI
      rw [ForEachProcess]
      simp [Nat.not_lt.2 (Nat.le_of_sub_eq_zero hI)]
  | succ k ih =>
      intro I hI
      have hlt : I < N := by omega
      rw [ForEachProcess]
      simp only [hlt, if_true, h I hlt, List.range'_succ]
      rw [ih (I + 1) (by omega)]

/-- `ForEachImpl::Process` when the functor first returns `false` at
index `k`: visits `I, ..., k` once each and stops. -/
theorem forEachProcess_stops (N : Nat) (pred : Nat → Bool) (k : Nat)
    (hk : k < N) (hf : pred k = false) (h : ∀ i, i < k → pred i = true) :
    ∀ (m I : Nat), k + 1 - I = m → I ≤ k → ForEachProcess N pred I = (false, List.range' I m) := by
  intro m
  induction m with
  | zero => intro I h1 h2; omega
  | succ m ih =>
      intro I h1 h2
      have hlt : I < N := by omega
      rw [ForEachProcess]
      rcases Nat.lt_or_ge I k with hik | hik
      · simp only [hlt, if_true, h I hik, List.range'_succ]
        rw [ih (I + 1) (by omega) (by omega)]
      · have hik' : I = k := by omega
        subst hik'
        have hm : m = 0 := by omega
        subst hm
        simp [hlt, hf, List.range'_succ]

/-- Length of a modelled pretty-signature string. -/
theorem prettyLen (pre : List Char) (nm : CppType → List Char) (T : CppType) :
    (getPrettyFunction pre nm T).length = pre.length + (nm T).length + 3 := by
  simp [getPrettyFunction]
  omega

/-! ## The claims -/

/-- Claim C1 — round-trip classification.  For every supported callable
category — a free function under any of its four wrappings (raw, pointer,
reference, reference-to-pointer, pointers possibly cv-qualified), a
pointer to a non-static member function (possibly cv-qualified, possibly
behind a reference), and a functor (possibly behind a reference) — and
every attribute combination applicable to that category (the convention
must be one the category's specializations handle: never `Thiscall` for
free functions, and cdecl when variadic), `FunctionTraits` recovers
exactly the constructed attributes through `ReturnType`, `ArgTypes` (and
hence `ArgCount`), `CallingConvention`, `IsVariadic`, `IsNoexcept`,
`Class`, `IsConst`, `IsVolatile` and `RefQualifier`. -/
theorem c1_round_trip_classification :
    (∀ (w : FreeWrap) (s : FreeSig), freeSpecExists s.cc s.vd = true →
      functionTraits? (w.apply s.fn) =
        some ⟨w.apply s.fn, s.ret, s.cc, s.vd, .voidT, false, false, .noQual, s.nx, s.args⟩)
  ∧ (∀ (w : MemWrap) (s : MemSig), memSpecExists s.cc s.vd = true →
      functionTraits? (w.apply s) =
        some ⟨w.apply s, s.ret, s.cc, s.vd, s.cl, s.cst, s.vol, s.rq, s.nx, s.args⟩)
  ∧ (∀ (n : Nat) (r : CppType) (a : List CppType) (cc : CC) (cst vol : Bool)
       (rq : RefQual) (vd nx : Bool), memSpecExists cc vd = true →
      functionTraits? (.functor n r a cc cst vol rq vd nx) =
        some ⟨functorOp n r a cc cst vol rq vd nx, r, cc, vd,
              .functor n r a cc cst vol rq vd nx, cst, vol, rq, nx, a⟩
      ∧ functionTraits? (.lref (.functor n r a cc cst vol rq vd nx)) =
        some ⟨functorOp n r a cc cst vol rq vd nx, r, cc, vd,
              .functor n r a cc cst vol rq vd nx, cst, vol, rq, nx, a⟩) := by
  refine ⟨?_, ?_, ?_⟩
  · intro w s h
    rcases w with _ | ⟨pc, pv⟩ | (_|_) | ⟨(_|_), pc, pv⟩ <;>
      simp [FreeWrap.apply, FreeSig.fn, functionTraits?, removeRefAndPtrAndCv,
            removeRefAndPtr, removeReference, removePointer, removeCv, h]
  · intro w s h
    rcases w with ⟨pc, pv⟩ | ⟨(_|_), pc, pv⟩ <;>
      simp [MemWrap.apply, MemSig.ptrTo, functionTraits?, removeRefAndPtrAndCv,
            removeRefAndPtr, removeReference, removePointer, removeCv, h]
  · intro n r a cc cst vol rq vd nx h
    constructor <;>
      simp [functionTraits?, removeRefAndPtrAndCv, removeRefAndPtr, removeReference,
            removePointer, removeCv, isFunctor, h]

/-- Witness for C1: a `const`-pointer-behind-lvalue-reference to a
`stdcall` noexcept free function `void(int)` classifies to exactly the
constructed attributes. -/
theorem c1_round_trip_classification_witness :
    freeSpecExists CC.stdcall false = true ∧
    functionTraits?
        (.lref (.ptr true false (.freeFunc .voidT [.scalar 1] .stdcall false true))) =
      some ⟨.lref (.ptr true false (.freeFunc .voidT [.scalar 1] .stdcall false true)),
            .voidT, .stdcall, false, .voidT, false, false, .noQual, true, [.scalar 1]⟩ :=
  ⟨rfl, c1_round_trip_classification.1 (FreeWrap.refPtr true true false)
          ⟨.voidT, [.scalar 1], .stdcall, false, true⟩ rfl⟩

/-- Claim C2 (amended) — frame condition of `ReplaceNthArg`.  A successful
`ReplaceNthType` replaces exactly entry `N` (same length, other entries
untouched), and `ReplaceNthArg` at a valid index rebuilds the type with
only the argument list changed: for free-function shapes and
member-pointer shapes the outer wrapping (reference kind, pointer-ness,
pointer cv-qualifiers) and every other attribute (return type, calling
convention, noexcept, variadic flag, cv/ref-qualifiers and owning class)
are preserved.  For a functor — whether passed plainly or by reference —
the result is the *plain* pointer-to-member-function type of the modified
`operator()` (an outer reference on the functor is not re-applied; this is
the one deviation from the claim as stated). -/
theorem c2_replace_nth_arg_frame :
    (∀ (N : Nat) (newT : CppType) (ts l : List CppType),
      ReplaceNthType N newT ts = some l →
      l.length = ts.length ∧ l[N]? = some newT ∧ ∀ i, i ≠ N → l[i]? = ts[i]?)
  ∧ (∀ (w : FreeWrap) (s : FreeSig) (N : Nat) (newT : CppType) (a' : List CppType),
      freeSpecExists s.cc s.vd = true → ReplaceNthType N newT s.args = some a' →
      ReplaceNthArg (w.apply s.fn) N newT =
        some (w.apply (.freeFunc s.ret a' s.cc s.vd s.nx)))
  ∧ (∀ (w : MemWrap) (s : MemSig) (N : Nat) (newT : CppType) (a' : List CppType),
      memSpecExists s.cc s.vd = true → ReplaceNthType N newT s.args = some a' →
      ReplaceNthArg (w.apply s) N newT =
        some (w.apply ⟨s.ret, s.cl, a', s.cc, s.cst, s.vol, s.rq, s.vd, s.nx⟩))
  ∧ (∀ (n : Nat) (r : CppType) (a : List CppType) (cc : CC) (cst vol : Bool)
       (rq : RefQual) (vd nx : Bool) (N : Nat) (newT : CppType) (a' : List CppType),
      memSpecExists cc vd = true → ReplaceNthType N newT a = some a' →
      ReplaceNthArg (.functor n r a cc cst vol rq vd nx) N newT =
        some (.memFuncPtr false false r (.functor n r a cc cst vol rq vd nx)
                a' cc cst vol rq vd nx)
      ∧ ReplaceNthArg (.lref (.functor n r a cc cst vol rq vd nx)) N newT =
        some (.memFuncPtr false false r (.functor n r a cc cst vol rq vd nx)
                a' cc cst vol rq vd nx)) := by
  refine ⟨replaceNth_spec, ?_, ?_, ?_⟩
  · intro w s N newT a' h hr
    obtain ⟨r, a, cc, vd, nx⟩ := s
    simp only [FreeSig.fn] at h hr ⊢
    rcases vd with _ | _
    · simp [ReplaceNthArg, functionTraits?, normFree, h, hr, ReplaceArgs, onEachShape,
            migrateFree]
    · have hc := freeSpecExists_variadic h
      subst hc
      simp [ReplaceNthArg, functionTraits?, normFree, h, hr, ReplaceArgs, onEachShape,
            migrateFree]
  · intro w s N newT a' h hr
    obtain ⟨r, c, a, cc, cst, vol, rq, vd, nx⟩ := s
    simp only at h hr ⊢
    rcases vd with _ | _
    · simp [ReplaceNthArg, functionTraits?, normMem, h, hr, ReplaceArgs, onEachShape,
            migrateMem]
    · have hc := memSpecExists_variadic h
      subst hc
      simp [ReplaceNthArg, functionTraits?, normMem, h, hr, ReplaceArgs, onEachShape,
            migrateMem]
  · intro n r a cc cst vol rq vd nx N newT a' h hr
    rcases vd with _ | _
    · constructor <;>
        simp [ReplaceNthArg, functionTraits?, removeRefAndPtrAndCv, removeRefAndPtr,
              removeReference, removePointer, removeCv, isFunctor, h, hr,
              ReplaceArgs, onEachShape, functorOp, migratePlainMem]
    · have hc := memSpecExists_variadic h
      subst hc
      constructor <;>
        simp [ReplaceNthArg, functionTraits?, removeRefAndPtrAndCv, removeRefAndPtr,
              removeReference, removePointer, removeCv, isFunctor, h, hr,
              ReplaceArgs, onEachShape, functorOp, migratePlainMem]

/-- Witness for C2: replacing argument 0 of `int (* const)(bool, int)`
(cdecl, non-noexcept) with `char` keeps the const pointer wrapping and
every other attribute. -/
theorem c2_replace_nth_arg_frame_witness :
    freeSpecExists CC.cdecl false = true ∧
    ReplaceNthType 0 (.scalar 3) [.scalar 1, .scalar 2] = some [.scalar 3, .scalar 2] ∧
    ReplaceNthArg (.ptr true false (.freeFunc (.scalar 2) [.scalar 1, .scalar 2] .cdecl false false))
        0 (.scalar 3) =
      some (.ptr true false (.freeFunc (.scalar 2) [.scalar 3, .scalar 2] .cdecl false false)) :=
  ⟨rfl, rfl,
    c2_replace_nth_arg_frame.2.1 (FreeWrap.pt true false)
      ⟨.scalar 2, [.scalar 1, .scalar 2], .cdecl, false, false⟩ 0 (.scalar 3)
      [.scalar 3, .scalar 2] rfl rfl⟩

/-- Counterexample for C2 as stated: for a *reference to a functor*
(`MyFunctor&`, here with one `int` parameter), `ReplaceNthArg` yields the
plain pointer-to-member-function type of the modified `operator()` — the
input carries an outer lvalue reference but the result carries none, so
the "outer pointer/reference wrapping of `F` is unchanged" part of the
claim fails at this input. -/
theorem c2_counterexample :
    ReplaceNthArg
        (.lref (.functor 0 .voidT [.scalar 1] .cdecl false false .noQual false false))
        0 (.scalar 2) =
      some (.memFuncPtr false false .voidT
              (.functor 0 .voidT [.scalar 1] .cdecl false false .noQual false false)
              [.scalar 2] .cdecl false false .noQual false false)
  ∧ removeReference
        (CppType.memFuncPtr false false .voidT
          (.functor 0 .voidT [.scalar 1] .cdecl false false .noQual false false)
          [.scalar 2] .cdecl false false .noQual false false) =
      CppType.memFuncPtr false false .voidT
        (.functor 0 .voidT [.scalar 1] .cdecl false false .noQual false false)
        [.scalar 2] .cdecl false false .noQual false false
  ∧ removeReference
        (CppType.lref (.functor 0 .voidT [.scalar 1] .cdecl false false .noQual false false)) ≠
      CppType.lref (.functor 0 .voidT [.scalar 1] .cdecl false false .noQual false false) :=
  ⟨rfl, rfl, fun h => CppType.noConfusion h⟩

/-- Claim C3 — out-of-range single-parameter replacement halts.  With a
zero-based index at or past the parameter count, `ReplaceNthType` is the
`static_assert` halt (`none`), a successful replacement never changes the
parameter count (never appends), and `ReplaceNthArg` on any classifiable
callable halts for every index at or past its `ArgCount`. -/
theorem c3_out_of_range_halts :
    (∀ (N : Nat) (newT : CppType) (ts : List CppType), ts.length ≤ N →
      ReplaceNthType N newT ts = none)
  ∧ (∀ (N : Nat) (newT : CppType) (ts l : List CppType),
      ReplaceNthType N newT ts = some l → l.length = ts.length)
  ∧ (∀ (F : CppType) (tr : Traits) (N : Nat) (newT : CppType),
      functionTraits? F = some tr → tr.ArgCount ≤ N →
      ReplaceNthArg F N newT = none) := by
  refine ⟨replaceNth_none, ?_, ?_⟩
  · intro N newT ts l h
    exact (replaceNth_spec N newT ts l h).1
  · intro F tr N newT hF hN
    simp [ReplaceNthArg, hF, replaceNth_none N newT tr.ArgTypes hN]

/-- Witness for C3: a two-parameter function refuses index 2 (and any
larger index would too); a zero-parameter function refuses index 0. -/
theorem c3_out_of_range_halts_witness :
    ([CppType.scalar 1, CppType.scalar 2].length ≤ 2 ∧
      ReplaceNthType 2 (.scalar 3) [.scalar 1, .scalar 2] = none)
  ∧ (([] : List CppType).length ≤ 0 ∧ ReplaceNthType 0 (.scalar 3) [] = none)
  ∧ (functionTraits? (.freeFunc .voidT [.scalar 1, .scalar 2] .cdecl false false) =
        some ⟨.freeFunc .voidT [.scalar 1, .scalar 2] .cdecl false false,
              .voidT, .cdecl, false, .voidT, false, false, .noQual, false,
              [.scalar 1, .scalar 2]⟩ ∧
      ReplaceNthArg (.freeFunc .voidT [.scalar 1, .scalar 2] .cdecl false false)
          2 (.scalar 3) = none) :=
  ⟨⟨by decide, c3_out_of_range_halts.1 2 (.scalar 3) [.scalar 1, .scalar 2] (by decide)⟩,
   ⟨by decide, c3_out_of_range_halts.1 0 (.scalar 3) [] (by decide)⟩,
   ⟨rfl, c3_out_of_range_halts.2.2
           (.freeFunc .voidT [.scalar 1, .scalar 2] .cdecl false false)
           ⟨.freeFunc .voidT [.scalar 1, .scalar 2] .cdecl false false,
            .voidT, .cdecl, false, .voidT, false, false, .noQual, false,
            [.scalar 1, .scalar 2]⟩ 2 (.scalar 3) rfl (by decide)⟩⟩

/-- Claim C4 — inapplicable-edit no-op law.  On every free-function-shaped
input (raw function, pointer, reference, reference-to-pointer), each
member-only transformation — `AddConst`, `RemoveConst`, `AddVolatile`,
`RemoveVolatile`, `AddCV`, `RemoveCV`, `AddLValueReference`,
`AddRValueReference`, `RemoveReference`, `ReplaceClass` — returns the
input unchanged, and `ReplaceCallingConvention` with the member-only
`Thiscall` convention likewise leaves the type unchanged. -/
theorem c4_inapplicable_edit_noop (w : FreeWrap) (s : FreeSig)
    (h : freeSpecExists s.cc s.vd = true) :
    AddConst (w.apply s.fn) = some (w.apply s.fn)
  ∧ RemoveConst (w.apply s.fn) = some (w.apply s.fn)
  ∧ AddVolatile (w.apply s.fn) = some (w.apply s.fn)
  ∧ RemoveVolatile (w.apply s.fn) = some (w.apply s.fn)
  ∧ AddCV (w.apply s.fn) = some (w.apply s.fn)
  ∧ RemoveCV (w.apply s.fn) = some (w.apply s.fn)
  ∧ AddLValueReference (w.apply s.fn) = some (w.apply s.fn)
  ∧ AddRValueReference (w.apply s.fn) = some (w.apply s.fn)
  ∧ RemoveReference (w.apply s.fn) = some (w.apply s.fn)
  ∧ (∀ newClass : CppType, ReplaceClass (w.apply s.fn) newClass = some (w.apply s.fn))
  ∧ ReplaceCallingConvention (w.apply s.fn) .thiscall = some (w.apply s.fn) := by
  obtain ⟨r, a, cc, vd, nx⟩ := s
  simp only [FreeSig.fn] at h ⊢
  have hcc : ReplaceCallingConvention (w.apply (.freeFunc r a cc vd nx)) .thiscall =
      some (w.apply (.freeFunc r a cc vd nx)) := by
    rcases vd with _ | _
    · simp [ReplaceCallingConvention, onEachShape, normFree, h, migrateFree]
    · have hc := freeSpecExists_variadic h
      subst hc
      simp [ReplaceCallingConvention, onEachShape, normFree, h, migrateFree]
  refine ⟨?_, ?_, ?_, ?_, ?_, ?_, ?_, ?_, ?_, fun newClass => ?_, hcc⟩ <;>
    simp [AddConst, RemoveConst, AddVolatile, RemoveVolatile, AddCV, RemoveCV,
          AddLValueReference, AddRValueReference, RemoveReference, ReplaceClass,
          onEachShape, normFree, h]

/-- Witness for C4: every member-only edit on `void (&)(int) noexcept`
(an lvalue reference to a cdecl free function) is an identity, as is the
`Thiscall` calling-convention request. -/
theorem c4_inapplicable_edit_noop_witness :
    freeSpecExists CC.cdecl false = true ∧
    AddConst (.lref (.freeFunc .voidT [.scalar 1] .cdecl false true)) =
      some (.lref (.freeFunc .voidT [.scalar 1] .cdecl false true)) ∧
    ReplaceClass (.lref (.freeFunc .voidT [.scalar 1] .cdecl false true)) (.cls 7) =
      some (.lref (.freeFunc .voidT [.scalar 1] .cdecl false true)) ∧
    ReplaceCallingConvention (.lref (.freeFunc .voidT [.scalar 1] .cdecl false true))
        .thiscall =
      some (.lref (.freeFunc .voidT [.scalar 1] .cdecl false true)) :=
  ⟨rfl,
   (c4_inapplicable_edit_noop (FreeWrap.rf true)
      ⟨.voidT, [.scalar 1], .cdecl, false, true⟩ rfl).1,
   (c4_inapplicable_edit_noop (FreeWrap.rf true)
      ⟨.voidT, [.scalar 1], .cdecl, false, true⟩ rfl).2.2.2.2.2.2.2.2.2.1 (.cls 7),
   (c4_inapplicable_edit_noop (FreeWrap.rf true)
      ⟨.voidT, [.scalar 1], .cdecl, false, true⟩ rfl).2.2.2.2.2.2.2.2.2.2⟩

/-- Claim C5 (amended) — idempotence of attribute-preserving edits.  For
free-function-shaped and member-pointer-shaped inputs, a transformation
that sets an attribute to the value it already has returns the input
unchanged: `AddNoexcept` on an already-noexcept function,
`AddVariadicArgs` on an already-variadic function,
`ReplaceCallingConvention` with the current effective convention, and (for
member functions) `AddConst` on a const function and `RemoveConst` on a
non-const one.  For a *functor* input the same edits instead return the
(unchanged) pointer-to-member-function type of its `operator()` —
`decltype(&F::operator())` — not the functor class itself (the deviation
from the claim as stated). -/
theorem c5_idempotence :
    (∀ (w : FreeWrap) (s : FreeSig), freeSpecExists s.cc s.vd = true →
      (s.nx = true → AddNoexcept (w.apply s.fn) = some (w.apply s.fn))
      ∧ (s.vd = true → AddVariadicArgs (w.apply s.fn) = some (w.apply s.fn))
      ∧ ReplaceCallingConvention (w.apply s.fn) s.cc = some (w.apply s.fn))
  ∧ (∀ (w : MemWrap) (s : MemSig), memSpecExists s.cc s.vd = true →
      (s.nx = true → AddNoexcept (w.apply s) = some (w.apply s))
      ∧ (s.vd = true → AddVariadicArgs (w.apply s) = some (w.apply s))
      ∧ (s.cst = true → AddConst (w.apply s) = some (w.apply s))
      ∧ (s.cst = false → RemoveConst (w.apply s) = some (w.apply s))
      ∧ ReplaceCallingConvention (w.apply s) s.cc = some (w.apply s))
  ∧ (∀ (n : Nat) (r : CppType) (a : List CppType) (cc : CC) (cst vol : Bool)
       (rq : RefQual) (vd : Bool), memSpecExists cc vd = true →
      AddNoexcept (.functor n r a cc cst vol rq vd true) =
        some (functorOp n r a cc cst vol rq vd true)) := by
  refine ⟨?_, ?_, ?_⟩
  · intro w s h
    obtain ⟨r, a, cc, vd, nx⟩ := s
    simp only [FreeSig.fn] at h ⊢
    refine ⟨fun hnx => ?_, fun hvd => ?_, ?_⟩
    · subst hnx
      simp [AddNoexcept, onEachShape, normFree, h, migrateFree]
    · subst hvd
      have hc := freeSpecExists_variadic h
      subst hc
      simp [AddVariadicArgs, onEachShape, normFree, h, migrateFree]
    · rcases vd with _ | _
      · simp [ReplaceCallingConvention, onEachShape, normFree, h, migrateFree]
      · have hc := freeSpecExists_variadic h
        subst hc
        simp [ReplaceCallingConvention, onEachShape, normFree, h, migrateFree]
  · intro w s h
    obtain ⟨r, c, a, cc, cst, vol, rq, vd, nx⟩ := s
    simp only at h ⊢
    refine ⟨fun hnx => ?_, fun hvd => ?_, fun hcst => ?_, fun hcst => ?_, ?_⟩
    · subst hnx
      simp [AddNoexcept, onEachShape, normMem, h, migrateMem]
    · subst hvd
      have hc := memSpecExists_variadic h
      subst hc
      simp [AddVariadicArgs, onEachShape, normMem, h, migrateMem]
    · subst hcst
      simp [AddConst, onEachShape, normMem, h, migrateMem]
    · subst hcst
      simp [RemoveConst, onEachShape, normMem, h, migrateMem]
    · rcases vd with _ | _
      · simp [ReplaceCallingConvention, onEachShape, normMem, h, migrateMem]
      · have hc := memSpecExists_variadic h
        subst hc
        simp [ReplaceCallingConvention, onEachShape, normMem, h, migrateMem]
  · intro n r a cc cst vol rq vd h
    rcases vd with _ | _
    · simp [AddNoexcept, onEachShape, removeRefAndPtrAndCv, removeRefAndPtr,
            removeReference, removePointer, removeCv, isFunctor, h, functorOp,
            migratePlainMem]
    · have hc := memSpecExists_variadic h
      subst hc
      simp [AddNoexcept, onEachShape, removeRefAndPtrAndCv, removeRefAndPtr,
            removeReference, removePointer, removeCv, isFunctor, h, functorOp,
            migratePlainMem]

/-- Witness for C5: `AddConst` on an already-const member function
`void (K::*)(int) const noexcept` and `AddNoexcept` on that (noexcept)
pointer both return the input unchanged. -/
theorem c5_idempotence_witness :
    memSpecExists CC.cdecl false = true ∧
    AddConst (.memFuncPtr false false .voidT (.cls 5) [.scalar 1] .cdecl true false .noQual false true) =
      some (.memFuncPtr false false .voidT (.cls 5) [.scalar 1] .cdecl true false .noQual false true) ∧
    AddNoexcept (.memFuncPtr false false .voidT (.cls 5) [.scalar 1] .cdecl true false .noQual false true) =
      some (.memFuncPtr false false .voidT (.cls 5) [.scalar 1] .cdecl true false .noQual false true) :=
  ⟨rfl,
   ((c5_idempotence.2.1 (MemWrap.pt false false)
      ⟨.voidT, .cls 5, [.scalar 1], .cdecl, true, false, .noQual, false, true⟩ rfl).2.2.1 rfl),
   ((c5_idempotence.2.1 (MemWrap.pt false false)
      ⟨.voidT, .cls 5, [.scalar 1], .cdecl, true, false, .noQual, false, true⟩ rfl).1 rfl)⟩

/-- Counterexample for C5 as stated: `AddNoexcept` on an already-noexcept
*functor* does not return the functor type itself — it returns the
pointer-to-member-function type of its `operator()`, so "the resulting
type is identical to the input" fails at this input. -/
theorem c5_counterexample :
    AddNoexcept (.functor 0 .voidT [] .cdecl false false .noQual false true) =
      some (.memFuncPtr false false .voidT
              (.functor 0 .voidT [] .cdecl false false .noQual false true)
              [] .cdecl false false .noQual false true)
  ∧ AddNoexcept (.functor 0 .voidT [] .cdecl false false .noQual false true) ≠
      some (.functor 0 .voidT [] .cdecl false false .noQual false true)
  ∧ (functionTraits? (.functor 0 .voidT [] .cdecl false false .noQual false true)).map
      Traits.IsNoexcept = some true :=
  ⟨rfl, fun h => CppType.noConfusion (Option.some.inj h), rfl⟩

/-- Claim C6 — classification-record invariant.  In every classification of
a C++-representable input, `IsMemberFunction` is exactly "`Class` is not
the void type" and `IsFreeFunction` its negation; `Class` is void exactly
when the normalized input is a free function; and whenever the callable
is not a non-static member function, `IsConst` and `IsVolatile` are false
and `RefQualifier` is `None`. -/
theorem c6_classification_invariant (F : CppType) (tr : Traits)
    (hwf : wfTop F = true) (h : functionTraits? F = some tr) :
    (tr.IsMemberFunction = true ↔ tr.Class ≠ .voidT)
  ∧ tr.IsFreeFunction = !tr.IsMemberFunction
  ∧ (tr.Class = .voidT ↔ isFreeFunction (removeRefAndPtrAndCv F) = true)
  ∧ (tr.IsMemberFunction = false →
      tr.IsConst = false ∧ tr.IsVolatile = false ∧ tr.RefQualifier = .noQual) := by
  have hwf' := wfTop_norm hwf
  unfold functionTraits? at h
  split at h
  case h_1 r a cc vd nx heq =>
    split at h
    · injection h with h
      subst h
      simp [Traits.IsMemberFunction, Traits.IsFreeFunction, isVoid, heq, isFreeFunction]
    · exact absurd h (by simp)
  case h_2 pc pv r c a cc cst vol rq vd nx heq =>
    split at h
    · injection h with h
      subst h
      rw [heq] at hwf'
      have hcls : isClassType c = true := by simpa [wfTop] using hwf'
      have hc : c ≠ CppType.voidT := by cases c <;> simp_all [isClassType]
      have hcv : isVoid c = false := by cases c <;> simp_all [isVoid, isClassType]
      simp [Traits.IsMemberFunction, Traits.IsFreeFunction, hcv, hc, heq, isFreeFunction]
    · exact absurd h (by simp)
  case h_3 n r a cc cst vol rq vd nx heq =>
    split at h
    · injection h with h
      subst h
      simp [Traits.IsMemberFunction, Traits.IsFreeFunction, isVoid, heq, isFreeFunction]
    · exact absurd h (by simp)
  case h_4 => exact absurd h (by simp)

/-- Witness for C6: the invariant holds at the classification of the
const member-function pointer `void (K::* const)(int) const &`. -/
theorem c6_classification_invariant_witness :
    wfTop (CppType.memFuncPtr true false .voidT (.cls 3) [.scalar 1]
            .cdecl true false .lvalue false false) = true ∧
    functionTraits? (.memFuncPtr true false .voidT (.cls 3) [.scalar 1]
            .cdecl true false .lvalue false false) =
      some ⟨.memFuncPtr true false .voidT (.cls 3) [.scalar 1] .cdecl true false .lvalue false false,
            .voidT, .cdecl, false, .cls 3, true, false, .lvalue, false, [.scalar 1]⟩ ∧
    ((Traits.IsMemberFunction ⟨.memFuncPtr true false .voidT (.cls 3) [.scalar 1] .cdecl true false .lvalue false false,
            .voidT, .cdecl, false, .cls 3, true, false, .lvalue, false, [.scalar 1]⟩ = true ↔
        Traits.Class ⟨.memFuncPtr true false .voidT (.cls 3) [.scalar 1] .cdecl true false .lvalue false false,
            .voidT, .cdecl, false, .cls 3, true, false, .lvalue, false, [.scalar 1]⟩ ≠ .voidT)
      ∧ Traits.IsFreeFunction ⟨.memFuncPtr true false .voidT (.cls 3) [.scalar 1] .cdecl true false .lvalue false false,
            .voidT, .cdecl, false, .cls 3, true, false, .lvalue, false, [.scalar 1]⟩ =
          !(Traits.IsMemberFunction ⟨.memFuncPtr true false .voidT (.cls 3) [.scalar 1] .cdecl true false .lvalue false false,
            .voidT, .cdecl, false, .cls 3, true, false, .lvalue, false, [.scalar 1]⟩)
      ∧ (Traits.Class ⟨.memFuncPtr true false .voidT (.cls 3) [.scalar 1] .cdecl true false .lvalue false false,
            .voidT, .cdecl, false, .cls 3, true, false, .lvalue, false, [.scalar 1]⟩ = .voidT ↔
          isFreeFunction (removeRefAndPtrAndCv
            (.memFuncPtr true false .voidT (.cls 3) [.scalar 1] .cdecl true false .lvalue false false)) = true)
      ∧ (Traits.IsMemberFunction ⟨.memFuncPtr true false .voidT (.cls 3) [.scalar 1] .cdecl true false .lvalue false false,
            .voidT, .cdecl, false, .cls 3, true, false, .lvalue, false, [.scalar 1]⟩ = false →
          Traits.IsConst ⟨.memFuncPtr true false .voidT (.cls 3) [.scalar 1] .cdecl true false .lvalue false false,
            .voidT, .cdecl, false, .cls 3, true, false, .lvalue, false, [.scalar 1]⟩ = false
          ∧ Traits.IsVolatile ⟨.memFuncPtr true false .voidT (.cls 3) [.scalar 1] .cdecl true false .lvalue false false,
            .voidT, .cdecl, false, .cls 3, true, false, .lvalue, false, [.scalar 1]⟩ = false
          ∧ Traits.RefQualifier ⟨.memFuncPtr true false .voidT (.cls 3) [.scalar 1] .cdecl true false .lvalue false false,
            .voidT, .cdecl, false, .cls 3, true, false, .lvalue, false, [.scalar 1]⟩ = .noQual)) :=
  ⟨rfl, rfl,
   c6_classification_invariant
     (.memFuncPtr true false .voidT (.cls 3) [.scalar 1] .cdecl true false .lvalue false false)
     ⟨.memFuncPtr true false .voidT (.cls 3) [.scalar 1] .cdecl true false .lvalue false false,
      .voidT, .cdecl, false, .cls 3, true, false, .lvalue, false, [.scalar 1]⟩ rfl rfl⟩

/-- Claim C7 — iteration contract of `ForEach` and `ForEachTupleType`.
If the predicate returns `true` at every index below `N`, it is invoked
exactly once per index `0..N-1` (zero times when `N = 0`, the trace being
`range N`) and the call completes (`true`); if it first returns `false`
at index `k`, it is invoked exactly `k+1` times (trace `range (k+1)`),
never at any index beyond `k`, and the call stops (`false`).  The same
holds for `ForEachTupleType` over a tuple's element types. -/
theorem c7_foreach_contract :
    (∀ (N : Nat) (pred : Nat → Bool), (∀ i, i < N → pred i = true) →
      ForEachProcess N pred 0 = (true, List.range N) ∧ ForEach N pred = true)
  ∧ (∀ (N : Nat) (pred : Nat → Bool) (k : Nat), k < N → pred k = false →
      (∀ i, i < k → pred i = true) →
      ForEachProcess N pred 0 = (false, List.range (k + 1)) ∧ ForEach N pred = false)
  ∧ (∀ (tup : List CppType) (pred : Nat → CppType → Bool),
      (∀ i, i < tup.length → pred i (tup.getD i .voidT) = true) →
      ForEachTupleType tup pred = (true, List.range tup.length))
  ∧ (∀ (tup : List CppType) (pred : Nat → CppType → Bool) (k : Nat),
      k < tup.length → pred k (tup.getD k .voidT) = false →
      (∀ i, i < k → pred i (tup.getD i .voidT) = true) →
      ForEachTupleType tup pred = (false, List.range (k + 1))) := by
  have hcomp : ∀ (N : Nat) (pred : Nat → Bool), (∀ i, i < N → pred i = true) →
      ForEachProcess N pred 0 = (true, List.range N) := by
    intro N pred h
    rw [List.range_eq_range']
    exact forEachProcess_complete N pred h N 0 (by omega)
  have hstop : ∀ (N : Nat) (pred : Nat → Bool) (k : Nat), k < N → pred k = false →
      (∀ i, i < k → pred i = true) →
      ForEachProcess N pred 0 = (false, List.range (k + 1)) := by
    intro N pred k hk hf h
    rw [List.range_eq_range']
    exact forEachProcess_stops N pred k hk hf h (k + 1) 0 (by omega) (by omega)
  refine ⟨fun N pred h => ⟨hcomp N pred h, by simp [ForEach, hcomp N pred h]⟩,
          fun N pred k hk hf h => ⟨hstop N pred k hk hf h, by simp [ForEach, hstop N pred k hk hf h]⟩,
          ?_, ?_⟩
  · intro tup pred h
    rcases Nat.eq_zero_or_pos tup.length with h0 | h0
    · simp [ForEachTupleType, h0, List.length_eq_zero.1 h0]
    · have hne : tup.length ≠ 0 := by omega
      simp only [ForEachTupleType, hne, if_true, ne_eq, not_false_eq_true]
      exact hcomp tup.length (fun I => pred I (tup.getD I .voidT)) h
  · intro tup pred k hk hf h
    have hne : tup.length ≠ 0 := by omega
    simp only [ForEachTupleType, hne, if_true, ne_eq, not_false_eq_true]
    exact hstop tup.length (fun I => pred I (tup.getD I .voidT)) k hk hf h

/-- Witness for C7: with 3 iterations an always-true predicate is invoked
at indices `[0, 1, 2]` and completes; a predicate true only at 0 is
invoked at `[0, 1]` and stops; the tuple versions behave identically on a
two-element tuple. -/
theorem c7_foreach_contract_witness :
    (ForEachProcess 3 (fun _ => true) 0 = (true, List.range 3) ∧
      ForEach 3 (fun _ => true) = true)
  ∧ (ForEachProcess 3 (fun i => i == 0) 0 = (false, List.range 2) ∧
      ForEach 3 (fun i => i == 0) = false)
  ∧ ForEachTupleType [CppType.scalar 1, CppType.voidT] (fun _ _ => true) =
      (true, List.range 2)
  ∧ ForEachTupleType [CppType.scalar 1, CppType.voidT] (fun _ t => t.isVoid) =
      (false, List.range 1) :=
  ⟨c7_foreach_contract.1 3 (fun _ => true) (fun _ _ => rfl),
   c7_foreach_contract.2.1 3 (fun i => i == 0) 1 (by omega) rfl
     (fun i hi => by
        have hz : i = 0 := by omega
        subst hz
        rfl),
   c7_foreach_contract.2.2.1 [CppType.scalar 1, CppType.voidT] (fun _ _ => true)
     (fun _ _ => rfl),
   c7_foreach_contract.2.2.2 [CppType.scalar 1, CppType.voidT] (fun _ t => t.isVoid) 0
     (by decide) rfl (fun i hi => absurd hi (by omega))⟩

/-- Claim C8 — functor/member-pointer equivalence.  Classifying a class
with exactly one non-template call operator produces the identical
classification record (every attribute, `Type` included) as classifying
the pointer-to-member-function type of that same `operator()` — and this
holds unconditionally, both paths failing together when no member
specialization handles the operator's shape. -/
theorem c8_functor_equivalence (n : Nat) (r : CppType) (a : List CppType) (cc : CC)
    (cst vol : Bool) (rq : RefQual) (vd nx : Bool) :
    functionTraits? (.functor n r a cc cst vol rq vd nx) =
      functionTraits? (functorOp n r a cc cst vol rq vd nx) := by
  simp [functionTraits?, functorOp, removeRefAndPtrAndCv, removeRefAndPtr, removeReference,
        removePointer, removeCv, isFunctor]

/-- Claim C9 — type-name extraction by calibration.  Whenever the float
probe names itself `"float"` (the condition the header's self-check
`static_assert`s on), `Get<float>()` returns exactly `"float"`, the
extractor returns each type's modelled name (the substring at the offset
calibrated from the float probe), and the computed length is 5 (the
length of `"float"`) plus the signed difference between the lengths of
`T`'s and `float`'s pretty-signature strings. -/
theorem c9_typename_extraction (pre : List Char) (nm : CppType → List Char)
    (hfloat : nm floatT = "float".toList) :
    typeNameGet pre nm floatT = "float".toList
  ∧ (∀ T, typeNameGet pre nm T = nm T)
  ∧ (∀ T, (getTypeNameLen pre nm T : Int) =
        5 + ((getPrettyFunction pre nm T).length : Int)
          - ((getPrettyFunction pre nm floatT).length : Int)) := by
  have hfl : ("float".toList).length = 5 := rfl
  have hlen : ∀ T, getTypeNameLen pre nm T = (nm T).length := by
    intro T
    have h1 := prettyLen pre nm T
    have h2 := prettyLen pre nm floatT
    rw [hfloat, hfl] at h2
    simp only [getTypeNameLen, h1, h2]
    split <;> omega
  have hget : ∀ T, typeNameGet pre nm T = nm T := by
    intro T
    have h2 := prettyLen pre nm floatT
    rw [hfloat, hfl] at h2
    simp only [typeNameGet, hlen, getTypeNameOffset, h2]
    have hoff : pre.length + 5 + 3 - 6 = pre.length + 2 := by omega
    have hsplit : getPrettyFunction pre nm T = (pre ++ ['=', ' ']) ++ (nm T ++ [']']) := by
      simp [getPrettyFunction]
    rw [hoff, hsplit, List.drop_left' (by simp), List.take_left' rfl]
  refine ⟨by rw [hget, hfloat], hget, ?_⟩
  intro T
  have h1 := prettyLen pre nm T
  have h2 := prettyLen pre nm floatT
  rw [hfloat, hfl] at h2
  rw [hlen]
  omega

/-- A sample compiler name assignment for the C9 witness: `float` for the
calibration type, `unsigned int` for every other type. -/
def sampleTypeName : CppType → List Char
  | .scalar 0 => "float".toList
  | _ => "unsigned int".toList

/-- Witness for C9: with an empty toolchain prefix and the sample names,
the self-check passes and extraction recovers `"unsigned int"` (12
characters, so length delta `+7`) for a non-calibration type. -/
theorem c9_typename_extraction_witness :
    sampleTypeName floatT = "float".toList ∧
    typeNameGet [] sampleTypeName floatT = "float".toList ∧
    typeNameGet [] sampleTypeName (.scalar 1) = "unsigned int".toList ∧
    ((getTypeNameLen [] sampleTypeName (.scalar 1) : Int) =
      5 + ((getPrettyFunction [] sampleTypeName (.scalar 1)).length : Int)
        - ((getPrettyFunction [] sampleTypeName floatT).length : Int)) :=
  ⟨rfl,
   (c9_typename_extraction [] sampleTypeName rfl).1,
   by
     rw [(c9_typename_extraction [] sampleTypeName rfl).2.1 (.scalar 1)]
     rfl,
   (c9_typename_extraction [] sampleTypeName rfl).2.2 (.scalar 1)⟩

/-- Claim C10 — the `Type` member.  Whenever classification succeeds and
the input is not a functor (nor a reference to one), `Type` echoes the
user's original input type exactly, outer wrapping and pointer-level
cv-qualifiers included; but for a functor — passed plainly or by
reference — `Type` is the pointer-to-member-function type
`decltype(&F::operator())`, not the class the user passed. -/
theorem c10_type_member :
    (∀ (F : CppType) (tr : Traits), functionTraits? F = some tr →
      isFunctor F = false → tr.Type' = F)
  ∧ (∀ (n : Nat) (r : CppType) (a : List CppType) (cc : CC) (cst vol : Bool)
       (rq : RefQual) (vd nx : Bool) (tr : Traits),
      functionTraits? (.functor n r a cc cst vol rq vd nx) = some tr →
      tr.Type' = functorOp n r a cc cst vol rq vd nx)
  ∧ (∀ (n : Nat) (r : CppType) (a : List CppType) (cc : CC) (cst vol : Bool)
       (rq : RefQual) (vd nx : Bool) (tr : Traits),
      functionTraits? (.lref (.functor n r a cc cst vol rq vd nx)) = some tr →
      tr.Type' = functorOp n r a cc cst vol rq vd nx) := by
  refine ⟨?_, ?_, ?_⟩
  · intro F tr h hfun
    unfold functionTraits? at h
    split at h
    case h_1 =>
      split at h
      · injection h with h
        subst h
        rfl
      · exact absurd h (by simp)
    case h_2 =>
      split at h
      · injection h with h
        subst h
        rfl
      · exact absurd h (by simp)
    case h_3 =>
      split at h
      · next hc =>
          rw [hfun] at hc
          simp at hc
      · exact absurd h (by simp)
    case h_4 => exact absurd h (by simp)
  all_goals
    intro n r a cc cst vol rq vd nx tr h
    unfold functionTraits? at h
    simp only [removeRefAndPtrAndCv, removeRefAndPtr, removeReference, removePointer,
               removeCv, isFunctor] at h
    split at h
    · injection h with h
      subst h
      rfl
    · exact absurd h (by simp)

/-- Witness for C10: `Type` for a volatile-pointer-to-function input is
that input itself; `Type` for a one-parameter functor is the pointer to
its `operator()`. -/
theorem c10_type_member_witness :
    functionTraits? (.ptr false true (.freeFunc .voidT [] .cdecl false false)) =
      some ⟨.ptr false true (.freeFunc .voidT [] .cdecl false false),
            .voidT, .cdecl, false, .voidT, false, false, .noQual, false, []⟩ ∧
    isFunctor (.ptr false true (.freeFunc .voidT [] .cdecl false false)) = false ∧
    Traits.Type' ⟨.ptr false true (.freeFunc .voidT [] .cdecl false false),
            .voidT, .cdecl, false, .voidT, false, false, .noQual, false, []⟩ =
      .ptr false true (.freeFunc .voidT [] .cdecl false false) ∧
    (functionTraits? (.functor 9 .voidT [.scalar 1] .cdecl false false .noQual false false)).map
        Traits.Type' =
      some (functorOp 9 .voidT [.scalar 1] .cdecl false false .noQual false false) :=
  ⟨rfl, rfl,
   c10_type_member.1 (.ptr false true (.freeFunc .voidT [] .cdecl false false))
     ⟨.ptr false true (.freeFunc .voidT [] .cdecl false false),
      .voidT, .cdecl, false, .voidT, false, false, .noQual, false, []⟩ rfl rfl,
   by
     rw [show (functionTraits? (.functor 9 .voidT [.scalar 1] .cdecl false false .noQual false false)) =
           some ⟨functorOp 9 .voidT [.scalar 1] .cdecl false false .noQual false false,
                 .voidT, .cdecl, false, .functor 9 .voidT [.scalar 1] .cdecl false false .noQual false false,
                 false, false, .noQual, false, [.scalar 1]⟩ from rfl]
     rw [Option.map_some',
         c10_type_member.2.1 9 .voidT [.scalar 1] .cdecl false false .noQual false false
           ⟨functorOp 9 .voidT [.scalar 1] .cdecl false false .noQual false false,
            .voidT, .cdecl, false, .functor 9 .voidT [.scalar 1] .cdecl false false .noQual false false,
            false, false, .noQual, false, [.scalar 1]⟩ rfl]⟩

end FunctionTraits
